import Mathlib

/-!
Shallow embedding of the TradeEngine execution core.

Conventions used throughout this development:
* Python float fields that carry money, prices or exposures are modelled as
  rationals; Python int fields as integers.
* Methods that can raise a Python exception are modelled with the Except monad;
  the error string is the exception message.
* External collaborators (the portfolio service, the throttle store, the
  kill-switch store, broker adapters) are modelled as explicit state or as
  function-valued parameters, mirroring their documented interfaces.
* Numeric text formatting inside diagnostic messages abbreviates Python's
  two-decimal formatting; no theorem below depends on the digits of a number
  embedded in a message.
-/

/-! ## Order state machine (src/trade_engine/execution/order_state.py) -/

inductive OrderStatus where
  | PENDING
  | SUBMITTED
  | PARTIALLY_FILLED
  | FILLED
  | CANCELLED
  | REJECTED
  | FAILED
  deriving DecidableEq, Repr

def OrderStatus.toStr : OrderStatus → String
  | .PENDING => "PENDING"
  | .SUBMITTED => "SUBMITTED"
  | .PARTIALLY_FILLED => "PARTIALLY_FILLED"
  | .FILLED => "FILLED"
  | .CANCELLED => "CANCELLED"
  | .REJECTED => "REJECTED"
  | .FAILED => "FAILED"

/-- Membership test used by the three is_terminal methods. -/
def OrderStatus.is_terminal (s : OrderStatus) : Bool :=
  s = .FILLED || s = .CANCELLED || s = .REJECTED || s = .FAILED

/-- The valid_transitions dictionary shared verbatim by Order.update_status,
OptionOrder.update_status and OptionSpreadOrder.update_status.  Terminal
statuses are not keys of the dictionary, hence none. -/
def valid_transitions : OrderStatus → Option (List OrderStatus)
  | .PENDING => some [.SUBMITTED, .REJECTED, .CANCELLED]
  | .SUBMITTED => some [.PARTIALLY_FILLED, .FILLED, .CANCELLED, .FAILED]
  | .PARTIALLY_FILLED => some [.FILLED, .CANCELLED, .FAILED]
  | _ => none

/-- The raise condition of update_status: the current status is a key of
valid_transitions, the new status is not in its list, and the order is not
terminal.  (For terminal statuses the first conjunct is already false.) -/
def status_transition_rejected (cur new_status : OrderStatus) : Bool :=
  match valid_transitions cur with
  | some allowed => !(allowed.contains new_status) && !cur.is_terminal
  | none => false

def invalid_transition_msg (cur new_status : OrderStatus) : String :=
  "Invalid state transition: " ++ cur.toStr ++ " -> " ++ new_status.toStr

structure Order where
  order_id : String
  strategy_id : String
  symbol : String
  side : String
  quantity : ℚ
  notional : ℚ
  status : OrderStatus
  broker_order_id : Option String
  filled_quantity : ℚ
  filled_notional : ℚ
  average_fill_price : Option ℚ
  created_at : String
  submitted_at : Option String
  filled_at : Option String
  cancelled_at : Option String
  rejection_reason : Option String
  deriving DecidableEq, Repr

def Order.is_terminal (o : Order) : Bool := o.status.is_terminal

/-- Order.update_status.  The only kwargs key the pipeline ever passes is
rejection_reason, modelled as the explicit rejection_kwarg argument; the
current wall-clock string is the now argument. -/
def Order.update_status (o : Order) (new_status : OrderStatus)
    (rejection_kwarg : Option String) (now : String) : Except String Order :=
  if status_transition_rejected o.status new_status then
    Except.error (invalid_transition_msg o.status new_status)
  else
    let o1 := { o with status := new_status }
    let o2 :=
      if new_status = OrderStatus.SUBMITTED then { o1 with submitted_at := some now }
      else if new_status = OrderStatus.FILLED then { o1 with filled_at := some now }
      else if new_status = OrderStatus.CANCELLED then { o1 with cancelled_at := some now }
      else o1
    let o3 :=
      match rejection_kwarg with
      | some r => { o2 with rejection_reason := some r }
      | none => o2
    Except.ok o3

/-! ## Option order models (src/trade_engine/execution/option_orders.py) -/

inductive OptionType where
  | CALL
  | PUT
  deriving DecidableEq, Repr

def OptionType.toStr : OptionType → String
  | .CALL => "CALL"
  | .PUT => "PUT"

/-- Truncation toward zero, the behaviour of Python's int() on a number. -/
def py_int (q : ℚ) : ℤ := if 0 ≤ q then Int.floor q else Int.ceil q

/-- Decimal digit character: 48 is the code of the character 0. -/
def digit_char (d : ℕ) : Char := Char.ofNat (48 + d)

/-- Fuel-driven decimal rendering of a natural number, most significant digit
first (the digits Python's str() prints for a non-negative int). -/
def nat_to_chars_core : ℕ → ℕ → List Char → List Char
  | 0, _, acc => acc
  | fuel + 1, n, acc =>
    if n < 10 then digit_char n :: acc
    else nat_to_chars_core fuel (n / 10) (digit_char (n % 10) :: acc)

def nat_to_chars (n : ℕ) : List Char := nat_to_chars_core (n + 1) n []

/-- Decimal rendering of a Python int (a possible leading minus sign). -/
def int_to_chars (i : ℤ) : List Char :=
  if i < 0 then '-' :: nat_to_chars i.natAbs else nat_to_chars i.toNat

/-- expiration.replace("-", "") deletes every dash from the string. -/
def remove_dashes (s : String) : String := ⟨s.data.filter (fun c => c ≠ '-')⟩

structure OptionLeg where
  symbol : String
  option_type : OptionType
  strike : ℚ
  expiration : String
  side : String
  quantity : ℤ
  contract_multiplier : ℤ
  deriving DecidableEq, Repr

/-- OptionLeg.get_contract_symbol: SYMBOL_YYMMDD_C/P_STRIKE where the strike
field is int(strike * 1000) and YYMMDD is the dash-free expiration with the
century characters dropped. -/
def OptionLeg.get_contract_symbol (leg : OptionLeg) : String :=
  let option_code := if leg.option_type = OptionType.CALL then "C" else "P"
  let exp_short : String := ⟨(remove_dashes leg.expiration).data.drop 2⟩
  leg.symbol ++ "_" ++ exp_short ++ "_" ++ option_code ++ "_" ++
    ⟨int_to_chars (py_int (leg.strike * 1000))⟩

def OptionLeg.get_notional (leg : OptionLeg) (price_per_contract : ℚ) : ℚ :=
  price_per_contract * leg.quantity * leg.contract_multiplier

structure OptionOrder where
  order_id : String
  strategy_id : String
  leg : OptionLeg
  limit_price : Option ℚ
  status : OrderStatus
  broker_order_id : Option String
  filled_quantity : ℤ
  filled_price : Option ℚ
  created_at : String
  submitted_at : Option String
  filled_at : Option String
  cancelled_at : Option String
  rejection_reason : Option String
  deriving DecidableEq, Repr

def OptionOrder.is_terminal (o : OptionOrder) : Bool := o.status.is_terminal

/-- OptionOrder.update_status: same transition table, timestamp stamping and
kwargs handling as Order.update_status. -/
def OptionOrder.update_status (o : OptionOrder) (new_status : OrderStatus)
    (rejection_kwarg : Option String) (now : String) : Except String OptionOrder :=
  if status_transition_rejected o.status new_status then
    Except.error (invalid_transition_msg o.status new_status)
  else
    let o1 := { o with status := new_status }
    let o2 :=
      if new_status = OrderStatus.SUBMITTED then { o1 with submitted_at := some now }
      else if new_status = OrderStatus.FILLED then { o1 with filled_at := some now }
      else if new_status = OrderStatus.CANCELLED then { o1 with cancelled_at := some now }
      else o1
    let o3 :=
      match rejection_kwarg with
      | some r => { o2 with rejection_reason := some r }
      | none => o2
    Except.ok o3

/-- Python dict lookup d.get(k, default-absent), for dicts kept in insertion
order as association lists. -/
def alist_get {α : Type} (l : List (String × α)) (k : String) : Option α :=
  (l.find? (fun p => p.1 = k)).map (fun p => p.2)

/-- Python dict assignment d[k] = v: overwrite in place, or append. -/
def alist_set {α : Type} (l : List (String × α)) (k : String) (v : α) :
    List (String × α) :=
  if (l.find? (fun p => p.1 = k)).isSome then
    l.map (fun p => if p.1 = k then (k, v) else p)
  else
    l ++ [(k, v)]

structure OptionSpreadOrder where
  order_id : String
  strategy_id : String
  legs : List OptionLeg
  limit_price : Option ℚ
  status : OrderStatus
  broker_order_id : Option String
  leg_fills : List (String × ℤ)
  leg_fill_prices : List (String × ℚ)
  created_at : String
  submitted_at : Option String
  filled_at : Option String
  cancelled_at : Option String
  rejection_reason : Option String
  deriving DecidableEq, Repr

def OptionSpreadOrder.is_terminal (o : OptionSpreadOrder) : Bool := o.status.is_terminal

/-- OptionSpreadOrder.is_fully_filled: no leg with filled quantity below its
leg quantity (missing map entries count as 0). -/
def OptionSpreadOrder.is_fully_filled (o : OptionSpreadOrder) : Bool :=
  o.legs.all (fun leg =>
    !((alist_get o.leg_fills leg.get_contract_symbol).getD 0 < leg.quantity))

/-- OptionSpreadOrder.update_status: same logic again. -/
def OptionSpreadOrder.update_status (o : OptionSpreadOrder) (new_status : OrderStatus)
    (rejection_kwarg : Option String) (now : String) : Except String OptionSpreadOrder :=
  if status_transition_rejected o.status new_status then
    Except.error (invalid_transition_msg o.status new_status)
  else
    let o1 := { o with status := new_status }
    let o2 :=
      if new_status = OrderStatus.SUBMITTED then { o1 with submitted_at := some now }
      else if new_status = OrderStatus.FILLED then { o1 with filled_at := some now }
      else if new_status = OrderStatus.CANCELLED then { o1 with cancelled_at := some now }
      else o1
    let o3 :=
      match rejection_kwarg with
      | some r => { o2 with rejection_reason := some r }
      | none => o2
    Except.ok o3

/-! ## Equity fills (src/trade_engine/execution/fills.py) -/

structure Fill where
  fill_id : String
  broker_order_id : String
  symbol : String
  quantity : ℚ
  price : ℚ
  timestamp : String
  notional : ℚ
  deriving DecidableEq, Repr

/-- Fill.__init__ derives notional = quantity * price. -/
def Fill.mk' (broker_order_id symbol : String) (quantity price : ℚ)
    (timestamp : String) : Fill :=
  { fill_id := "fill_" ++ timestamp
    broker_order_id := broker_order_id
    symbol := symbol
    quantity := quantity
    price := price
    timestamp := timestamp
    notional := quantity * price }

/-- FillProcessor.apply_fill_to_order for equity orders. -/
def FillProcessor.apply_fill_to_order (o : Order) (f : Fill) (now : String) :
    Except String Order :=
  if f.symbol ≠ o.symbol then
    Except.error ("Fill symbol " ++ f.symbol ++ " doesn't match order " ++ o.symbol)
  else if o.broker_order_id ≠ some f.broker_order_id then
    Except.error ("Fill broker_order_id " ++ f.broker_order_id ++ " doesn't match order")
  else
    let new_filled_quantity := o.filled_quantity + f.quantity
    let new_filled_notional := o.filled_notional + f.notional
    (if new_filled_quantity ≥ o.quantity then
      (o.update_status OrderStatus.FILLED none now).map (fun o1 =>
        { o1 with filled_quantity := o1.quantity, filled_notional := o1.notional })
    else
      (o.update_status OrderStatus.PARTIALLY_FILLED none now).map (fun o1 =>
        { o1 with filled_quantity := new_filled_quantity,
                  filled_notional := new_filled_notional })).map
      (fun o2 =>
        if o2.filled_quantity > 0 then
          { o2 with average_fill_price := some (o2.filled_notional / o2.filled_quantity) }
        else o2)

/-- FillProcessor.validate_fill, the pure predicate. -/
def FillProcessor.validate_fill (f : Fill) (o : Order) : Bool × Option String :=
  if f.symbol ≠ o.symbol then
    (false, some ("Symbol mismatch: " ++ f.symbol ++ " != " ++ o.symbol))
  else if o.broker_order_id ≠ some f.broker_order_id then
    (false, some "Broker order ID mismatch")
  else if o.filled_quantity + f.quantity > o.quantity then
    (false, some "Fill quantity exceeds remaining order quantity")
  else if f.price ≤ 0 then
    (false, some "Fill price must be positive")
  else
    (true, none)

/-! ## Option fills (src/trade_engine/execution/option_fills.py) -/

structure OptionFill where
  fill_id : String
  broker_order_id : String
  contract_symbol : String
  quantity : ℤ
  price_per_contract : ℚ
  timestamp : String
  deriving DecidableEq, Repr

/-- The final average-update step of OptionFillProcessor.apply_fill_to_order:
if contracts are filled, set filled_price to the fill price on a first fill,
else to the quantity-weighted average computed from the already-updated
(capped) filled_quantity. -/
def option_price_update (f : OptionFill) (o2 : OptionOrder) : OptionOrder :=
  if o2.filled_quantity > 0 then
    match o2.filled_price with
    | none => { o2 with filled_price := some f.price_per_contract }
    | some prev_avg =>
      let total_cost :=
        prev_avg * ((o2.filled_quantity : ℚ) - (f.quantity : ℚ)) +
          f.price_per_contract * (f.quantity : ℚ)
      { o2 with filled_price := some (total_cost / (o2.filled_quantity : ℚ)) }
  else o2

/-- OptionFillProcessor.apply_fill_to_order for single-leg option orders. -/
def OptionFillProcessor.apply_fill_to_order (o : OptionOrder) (f : OptionFill)
    (now : String) : Except String OptionOrder :=
  let contract_symbol := o.leg.get_contract_symbol
  if f.contract_symbol ≠ contract_symbol then
    Except.error ("Fill contract " ++ f.contract_symbol ++ " doesn't match order " ++
      contract_symbol)
  else if o.broker_order_id ≠ some f.broker_order_id then
    Except.error ("Fill broker_order_id " ++ f.broker_order_id ++ " doesn't match order")
  else
    let new_filled_quantity := o.filled_quantity + f.quantity
    (if new_filled_quantity ≥ o.leg.quantity then
      (o.update_status OrderStatus.FILLED none now).map (fun o1 =>
        { o1 with filled_quantity := o1.leg.quantity })
    else
      (o.update_status OrderStatus.PARTIALLY_FILLED none now).map (fun o1 =>
        { o1 with filled_quantity := new_filled_quantity })).map
      (option_price_update f)

/-- OptionFillProcessor.apply_fill_to_spread. -/
def OptionFillProcessor.apply_fill_to_spread (o : OptionSpreadOrder) (f : OptionFill)
    (leg : OptionLeg) (now : String) : Except String OptionSpreadOrder :=
  let contract_symbol := leg.get_contract_symbol
  if f.contract_symbol ≠ contract_symbol then
    Except.error ("Fill contract " ++ f.contract_symbol ++ " doesn't match leg " ++
      contract_symbol)
  else
    let current_filled := (alist_get o.leg_fills contract_symbol).getD 0
    let new_filled0 := current_filled + f.quantity
    let new_filled := if new_filled0 > leg.quantity then leg.quantity else new_filled0
    let o1 := { o with
      leg_fills := alist_set o.leg_fills contract_symbol new_filled,
      leg_fill_prices := alist_set o.leg_fill_prices contract_symbol f.price_per_contract }
    if o1.is_fully_filled then
      o1.update_status OrderStatus.FILLED none now
    else if new_filled > 0 then
      o1.update_status OrderStatus.PARTIALLY_FILLED none now
    else
      Except.ok o1

/-! ## Kill switch (src/trade_engine/api/kill_switch.py)

The backing store is modelled as a key-value snapshot plus an optional read
failure: when read_error is set, every get awaits into an exception, which is
how an unreachable store surfaces to the caller. -/

structure RedisStr where
  data : List (String × String)
  read_error : Option String
  deriving DecidableEq, Repr

def RedisStr.get (r : RedisStr) (k : String) : Except String (Option String) :=
  match r.read_error with
  | some e => Except.error e
  | none => Except.ok (alist_get r.data k)

def RedisStr.set (r : RedisStr) (k v : String) : Except String RedisStr :=
  match r.read_error with
  | some e => Except.error e
  | none => Except.ok { r with data := alist_set r.data k v }

structure KillSwitch where
  redis_client : Option RedisStr
  memory_state : Bool
  deriving DecidableEq, Repr

/-- KillSwitch.__init__: the in-memory fallback starts at False. -/
def KillSwitch.mk' (redis_client : Option RedisStr) : KillSwitch :=
  { redis_client := redis_client, memory_state := false }

/-- KillSwitch.is_active.  With a store: state == "1" if state else False
(a missing or empty value is falsy).  Without a store: the memory flag. -/
def KillSwitch.is_active (ks : KillSwitch) : Except String Bool :=
  match ks.redis_client with
  | some r => do
    let state ← r.get "kill_switch:active"
    pure (match state with
      | none => false
      | some s => if s = "" then false else s = "1")
  | none => Except.ok ks.memory_state

def KillSwitch.activate (ks : KillSwitch) (reason now : String) :
    Except String KillSwitch :=
  match ks.redis_client with
  | some r => do
    let r ← r.set "kill_switch:active" "1"
    let r ← r.set "kill_switch:reason" reason
    let r ← r.set "kill_switch:activated_at" now
    pure { ks with redis_client := some r }
  | none => Except.ok { ks with memory_state := true }

def KillSwitch.deactivate (ks : KillSwitch) (reason now : String) :
    Except String KillSwitch :=
  match ks.redis_client with
  | some r => do
    let r ← r.set "kill_switch:active" "0"
    let r ← r.set "kill_switch:deactivated_at" now
    let r ← r.set "kill_switch:deactivation_reason" reason
    pure { ks with redis_client := some r }
  | none => Except.ok { ks with memory_state := false }

/-! ## Risk limits (src/trade_engine/config/limits.py) -/

structure RiskLimits where
  max_position_size_usd : ℚ
  max_total_exposure_usd : ℚ
  max_single_asset_exposure_pct : ℚ
  max_daily_loss_usd : ℚ
  max_daily_loss_pct : ℚ
  max_order_notional_usd : ℚ
  min_order_notional_usd : ℚ
  max_orders_per_strategy_per_minute : ℤ
  max_orders_per_strategy_per_hour : ℤ
  max_slippage_bps : ℤ
  deriving DecidableEq, Repr

def DEFAULT_LIMITS : RiskLimits :=
  { max_position_size_usd := 1000000
    max_total_exposure_usd := 10000000
    max_single_asset_exposure_pct := 20 / 100
    max_daily_loss_usd := 100000
    max_daily_loss_pct := 5 / 100
    max_order_notional_usd := 500000
    min_order_notional_usd := 1000
    max_orders_per_strategy_per_minute := 10
    max_orders_per_strategy_per_hour := 100
    max_slippage_bps := 50 }

/-! ## Signal contract (src/trade_engine/config/signal_contract.py) -/

inductive Side where
  | BUY
  | SELL
  deriving DecidableEq, Repr

def Side.toStr : Side → String
  | .BUY => "BUY"
  | .SELL => "SELL"

inductive TimeHorizon where
  | INTRADAY
  | SWING
  | LONG
  deriving DecidableEq, Repr

structure SignalConstraints where
  max_slippage_bps : ℤ
  max_notional : Option ℚ
  deriving DecidableEq, Repr

structure TradingSignal where
  strategy_id : String
  symbol : String
  side : Side
  confidence : ℚ
  target_exposure : ℚ
  time_horizon : TimeHorizon
  constraints : SignalConstraints
  deriving DecidableEq, Repr

/-- TradingSignal.get_order_notional.  The Python guard is the truthiness of
max_notional: None and 0.0 both skip the minimum. -/
def TradingSignal.get_order_notional (s : TradingSignal) : ℚ :=
  match s.constraints.max_notional with
  | some m => if m = 0 then s.target_exposure else min s.target_exposure m
  | none => s.target_exposure

/-! ## Portfolio client interface (external collaborator, section 6 of the
spec): position, all positions, portfolio value, strategy and total daily
P&L, all read-only snapshots for the current signal. -/

structure PortfolioClient where
  get_position : String → ℚ
  get_all_positions : List (String × ℚ)
  get_portfolio_value : Option ℚ
  get_strategy_daily_pnl : String → ℚ
  get_total_daily_pnl : ℚ

/-- Stand-in for Python's two-decimal number formatting inside messages. -/
def q_str (q : ℚ) : String := toString q

/-! ## Exposure checks (src/trade_engine/risk/exposure.py) -/

def ExposureCalculator.get_current_position (pc : PortfolioClient) (symbol : String) : ℚ :=
  pc.get_position symbol

def ExposureCalculator.get_total_exposure (pc : PortfolioClient) : ℚ :=
  (pc.get_all_positions.map (fun p => |p.2|)).sum

def ExposureCalculator.get_asset_exposure (pc : PortfolioClient) (symbol : String) : ℚ :=
  |ExposureCalculator.get_current_position pc symbol|

def ExposureCalculator.calculate_new_exposure (signal : TradingSignal)
    (current_position : ℚ) : ℚ :=
  if signal.side = Side.BUY then |current_position + signal.target_exposure|
  else |current_position - signal.target_exposure|

def ExposureCalculator.check_position_limit (pc : PortfolioClient)
    (signal : TradingSignal) (limits : RiskLimits) : Bool × Option String :=
  let current_position := ExposureCalculator.get_current_position pc signal.symbol
  let new_exposure := ExposureCalculator.calculate_new_exposure signal current_position
  if new_exposure > limits.max_position_size_usd then
    (false, some ("Position limit exceeded: " ++ q_str new_exposure ++ " > " ++
      q_str limits.max_position_size_usd))
  else (true, none)

def ExposureCalculator.check_total_exposure_limit (pc : PortfolioClient)
    (signal : TradingSignal) (limits : RiskLimits) : Bool × Option String :=
  let current_total := ExposureCalculator.get_total_exposure pc
  let current_asset := ExposureCalculator.get_asset_exposure pc signal.symbol
  let new_asset := ExposureCalculator.calculate_new_exposure signal
    (ExposureCalculator.get_current_position pc signal.symbol)
  let new_total := current_total - current_asset + new_asset
  if new_total > limits.max_total_exposure_usd then
    (false, some ("Total exposure limit exceeded: " ++ q_str new_total ++ " > " ++
      q_str limits.max_total_exposure_usd))
  else (true, none)

def ExposureCalculator.check_single_asset_exposure_limit (pc : PortfolioClient)
    (signal : TradingSignal) (limits : RiskLimits) (total_portfolio_value : ℚ) :
    Bool × Option String :=
  if total_portfolio_value ≤ 0 then (true, none)
  else
    let new_exposure := ExposureCalculator.calculate_new_exposure signal
      (ExposureCalculator.get_current_position pc signal.symbol)
    let exposure_pct := new_exposure / total_portfolio_value
    if exposure_pct > limits.max_single_asset_exposure_pct then
      (false, some ("Single asset exposure limit exceeded: " ++ q_str exposure_pct ++
        " > " ++ q_str limits.max_single_asset_exposure_pct))
    else (true, none)

/-! ## Loss limit checks (src/trade_engine/risk/loss_limits.py) -/

def LossLimitChecker.check_daily_loss_limit (pc : PortfolioClient)
    (strategy_id : String) (limits : RiskLimits) : Bool × Option String :=
  let daily_pnl := pc.get_strategy_daily_pnl strategy_id
  if daily_pnl < -limits.max_daily_loss_usd then
    (false, some ("Daily loss limit exceeded: $" ++ q_str |daily_pnl| ++ " > $" ++
      q_str limits.max_daily_loss_usd))
  else
    match pc.get_portfolio_value with
    | some portfolio_value =>
      if portfolio_value > 0 then
        let loss_pct := |daily_pnl| / portfolio_value
        if loss_pct > limits.max_daily_loss_pct then
          (false, some ("Daily loss percentage limit exceeded: " ++ q_str loss_pct ++
            " > " ++ q_str limits.max_daily_loss_pct))
        else (true, none)
      else (true, none)
    | none => (true, none)

def LossLimitChecker.check_total_daily_loss_limit (pc : PortfolioClient)
    (limits : RiskLimits) : Bool × Option String :=
  let total_daily_pnl := pc.get_total_daily_pnl
  if total_daily_pnl < -limits.max_daily_loss_usd then
    (false, some ("Total daily loss limit exceeded: $" ++ q_str |total_daily_pnl| ++
      " > $" ++ q_str limits.max_daily_loss_usd))
  else (true, none)

/-! ## Throttles (src/trade_engine/risk/throttles.py)

The in-memory branch of the checker is embedded; the Redis branch computes
the same sliding-window counts over the same unix-second scores.  Timestamps
are unix seconds as integers; now is the current time. -/

abbrev MemCache := List (String × List ℤ)

def ThrottleChecker.get_order_timestamps (cache : MemCache) (strategy_id : String)
    (window_minutes : ℤ) (now : ℤ) : List ℤ :=
  let cutoff := now - 60 * window_minutes
  match alist_get cache strategy_id with
  | none => []
  | some l => l.filter (fun ts => decide (ts ≥ cutoff))

def ThrottleChecker.record_order (cache : MemCache) (strategy_id : String)
    (now : ℤ) : MemCache :=
  match alist_get cache strategy_id with
  | none => alist_set cache strategy_id [now]
  | some l => alist_set cache strategy_id (l ++ [now])

def ThrottleChecker.check_rate_limit (cache : MemCache) (strategy_id : String)
    (limits : RiskLimits) (now : ℤ) : (Bool × Option String × Bool) × MemCache :=
  let recent_minute := ThrottleChecker.get_order_timestamps cache strategy_id 1 now
  if (recent_minute.length : ℤ) ≥ limits.max_orders_per_strategy_per_minute then
    ((false,
      some ("Rate limit exceeded: " ++ toString recent_minute.length ++
        " orders in last minute (max: " ++
        toString limits.max_orders_per_strategy_per_minute ++ ")"),
      false), cache)
  else
    let recent_hour := ThrottleChecker.get_order_timestamps cache strategy_id 60 now
    if (recent_hour.length : ℤ) ≥ limits.max_orders_per_strategy_per_hour then
      ((false,
        some ("Rate limit exceeded: " ++ toString recent_hour.length ++
          " orders in last hour (max: " ++
          toString limits.max_orders_per_strategy_per_hour ++ ")"),
        false), cache)
    else
      ((true, none, true), ThrottleChecker.record_order cache strategy_id now)

/-! ## Pre-trade orchestrator (src/trade_engine/risk/pre_trade.py) -/

structure CheckResult where
  valid : Bool
  error : Option String
  deriving DecidableEq, Repr

def PreTradeRiskChecker.check_order_notional (limits : RiskLimits)
    (signal : TradingSignal) : Bool × Option String :=
  let notional := signal.get_order_notional
  if notional > limits.max_order_notional_usd then
    (false, some ("Order notional exceeds limit: $" ++ q_str notional ++ " > $" ++
      q_str limits.max_order_notional_usd))
  else if notional < limits.min_order_notional_usd then
    (false, some ("Order notional below minimum: $" ++ q_str notional ++ " < $" ++
      q_str limits.min_order_notional_usd))
  else (true, none)

def PreTradeRiskChecker.check_slippage_limit (limits : RiskLimits)
    (signal : TradingSignal) : Bool × Option String :=
  if signal.constraints.max_slippage_bps > limits.max_slippage_bps then
    (false, some ("Slippage limit exceeded: " ++
      toString signal.constraints.max_slippage_bps ++ " bps > " ++
      toString limits.max_slippage_bps ++ " bps"))
  else (true, none)

/-- One accumulation step of run_all_checks: record the check under its name
and, when invalid, append its message to the error list. -/
def run_checks_step (acc : List String × List (String × CheckResult))
    (name : String) (r : Bool × Option String) :
    List String × List (String × CheckResult) :=
  (if r.1 then acc.1 else acc.1 ++ [(r.2).getD ""],
   acc.2 ++ [(name, { valid := r.1, error := r.2 })])

/-- PreTradeRiskChecker.run_all_checks: the eight checks in their fixed order,
accumulating errors without short-circuiting.  The throttle check both reads
and writes the throttle cache, so the updated cache is returned alongside. -/
def PreTradeRiskChecker.run_all_checks (pc : PortfolioClient) (cache : MemCache)
    (now : ℤ) (limits : RiskLimits) (signal : TradingSignal) :
    (Bool × List String × List (String × CheckResult)) × MemCache :=
  let acc0 : List String × List (String × CheckResult) := ([], [])
  let acc1 := run_checks_step acc0 "order_notional"
    (PreTradeRiskChecker.check_order_notional limits signal)
  let acc2 := run_checks_step acc1 "slippage"
    (PreTradeRiskChecker.check_slippage_limit limits signal)
  let acc3 := run_checks_step acc2 "position_limit"
    (ExposureCalculator.check_position_limit pc signal limits)
  let acc4 := run_checks_step acc3 "total_exposure"
    (ExposureCalculator.check_total_exposure_limit pc signal limits)
  let portfolio_value := pc.get_portfolio_value
  let acc5 := run_checks_step acc4 "single_asset_exposure"
    (ExposureCalculator.check_single_asset_exposure_limit pc signal limits
      (portfolio_value.getD 0))
  let acc6 := run_checks_step acc5 "strategy_daily_loss"
    (LossLimitChecker.check_daily_loss_limit pc signal.strategy_id limits)
  let acc7 := run_checks_step acc6 "total_daily_loss"
    (LossLimitChecker.check_total_daily_loss_limit pc limits)
  let rate := ThrottleChecker.check_rate_limit cache signal.strategy_id limits now
  let acc8 := run_checks_step acc7 "rate_limit" (rate.1.1, rate.1.2.1)
  ((acc8.1.isEmpty, acc8.1, acc8.2), rate.2)

/-! ## Order routers (src/trade_engine/execution/order_router.py and
option_router.py)

A broker adapter call is modelled by its outcome at this invocation: ok with
the broker-assigned id, or error with the raised exception's message. -/

def OrderRouter.submit_order (o : Order) (broker_submit : Except String String)
    (now : String) : Except String (Order × Option String) :=
  match broker_submit with
  | Except.ok broker_order_id => do
    let o1 := { o with broker_order_id := some broker_order_id }
    let o2 ← o1.update_status OrderStatus.SUBMITTED none now
    pure (o2, none)
  | Except.error e => do
    let o1 ← o.update_status OrderStatus.FAILED (some e) now
    pure (o1, some e)

def OrderRouter.cancel_order (o : Order) (broker_cancel : Except String Bool)
    (now : String) : (Bool × Option String) × Order :=
  if o.is_terminal then
    ((false, some ("Cannot cancel order in terminal state: " ++ o.status.toStr)), o)
  else if o.broker_order_id = none then
    ((false, some "Order not yet submitted to broker"), o)
  else
    match broker_cancel with
    | Except.ok _ =>
      match o.update_status OrderStatus.CANCELLED none now with
      | Except.ok o1 => ((true, none), o1)
      | Except.error e => ((false, some e), o)
    | Except.error e => ((false, some e), o)

def OptionOrderRouter.cancel_option_order (o : OptionOrder)
    (broker_cancel : Except String Bool) (now : String) :
    (Bool × Option String) × OptionOrder :=
  if o.is_terminal then
    ((false, some ("Cannot cancel order in terminal state: " ++ o.status.toStr)), o)
  else if o.broker_order_id = none then
    ((false, some "Order not yet submitted to broker"), o)
  else
    match broker_cancel with
    | Except.ok _ =>
      match o.update_status OrderStatus.CANCELLED none now with
      | Except.ok o1 => ((true, none), o1)
      | Except.error e => ((false, some e), o)
    | Except.error e => ((false, some e), o)

/-- OptionOrderRouter.cancel_option_order also accepts spread orders. -/
def OptionOrderRouter.cancel_spread_order (o : OptionSpreadOrder)
    (broker_cancel : Except String Bool) (now : String) :
    (Bool × Option String) × OptionSpreadOrder :=
  if o.is_terminal then
    ((false, some ("Cannot cancel order in terminal state: " ++ o.status.toStr)), o)
  else if o.broker_order_id = none then
    ((false, some "Order not yet submitted to broker"), o)
  else
    match broker_cancel with
    | Except.ok _ =>
      match o.update_status OrderStatus.CANCELLED none now with
      | Except.ok o1 => ((true, none), o1)
      | Except.error e => ((false, some e), o)
    | Except.error e => ((false, some e), o)

/-! ## Paper broker cancellation (src/trade_engine/brokers/paper.py)

The broker-side order book is a map from broker order id to status string. -/

def PaperBroker.cancel_order (orders : List (String × String)) (broker_order_id : String) :
    Except String (Bool × List (String × String)) :=
  match alist_get orders broker_order_id with
  | none => Except.error ("Order not found: " ++ broker_order_id)
  | some st =>
    if st = "FILLED" ∨ st = "CANCELLED" then Except.ok (false, orders)
    else Except.ok (true, alist_set orders broker_order_id "CANCELLED")

/-! ## Signal pipeline (src/trade_engine/api/signal_ingest.py)

process_signal is embedded over an explicit environment: the kill switch
state, the portfolio snapshot, the throttle cache, and the outcome of the
(at most one) broker submission performed within this invocation.  Emitted
audit entries and the external interactions the pipeline performs are
returned as traces, in emission order. -/

structure SignalResponse where
  signal_id : String
  order_id : Option String
  status : String
  message : String
  errors : List String
  deriving DecidableEq, Repr

inductive AuditEvent where
  | decision (signal_id strategy_id symbol decision : String)
      (check_results : List (String × CheckResult)) (errors : List String)
  | order_created (o : Order)
  | order_submitted (o : Order) (broker_order_id : String)
  | order_rejected (o : Order) (reason : String)
  deriving DecidableEq, Repr

inductive ExtCall where
  | kill_switch_read
  | risk_checks
  | broker_submit
  deriving DecidableEq, Repr

structure PipelineResult where
  response : SignalResponse
  audit : List AuditEvent
  calls : List ExtCall
  throttle : MemCache
  deriving DecidableEq, Repr

def kill_switch_halt_msg : String := "Kill switch is active - trading halted"

def SignalIngestionService.process_signal (ks : KillSwitch) (pc : PortfolioClient)
    (cache : MemCache) (throttle_now : ℤ) (limits : RiskLimits)
    (broker_submit : Except String String) (signal : TradingSignal)
    (signal_id order_id now : String) : Except String PipelineResult := do
  let active ← ks.is_active
  if active then
    pure {
      response := { signal_id := signal_id, order_id := none, status := "REJECTED",
                    message := kill_switch_halt_msg, errors := [kill_switch_halt_msg] }
      audit := [AuditEvent.decision signal_id signal.strategy_id signal.symbol
        "REJECTED" [("kill_switch", { valid := false, error := some kill_switch_halt_msg })]
        [kill_switch_halt_msg]]
      calls := [ExtCall.kill_switch_read]
      throttle := cache }
  else
    let rr := PreTradeRiskChecker.run_all_checks pc cache throttle_now limits signal
    let is_valid := rr.1.1
    let errors := rr.1.2.1
    let check_results := rr.1.2.2
    let cache1 := rr.2
    let decision := if is_valid then "APPROVED" else "REJECTED"
    let decision_event := AuditEvent.decision signal_id signal.strategy_id
      signal.symbol decision check_results errors
    if !is_valid then
      pure {
        response := { signal_id := signal_id, order_id := none, status := "REJECTED",
                      message := "Signal rejected by risk checks", errors := errors }
        audit := [decision_event]
        calls := [ExtCall.kill_switch_read, ExtCall.risk_checks]
        throttle := cache1 }
    else
      let order : Order := {
        order_id := order_id
        strategy_id := signal.strategy_id
        symbol := signal.symbol
        side := signal.side.toStr
        quantity := signal.target_exposure
        notional := signal.get_order_notional
        status := OrderStatus.PENDING
        broker_order_id := none
        filled_quantity := 0
        filled_notional := 0
        average_fill_price := none
        created_at := now
        submitted_at := none
        filled_at := none
        cancelled_at := none
        rejection_reason := none }
      let created_event := AuditEvent.order_created order
      let sub ← OrderRouter.submit_order order broker_submit now
      match sub.2 with
      | some submit_error => do
        let order2 ← sub.1.update_status OrderStatus.REJECTED (some submit_error) now
        pure {
          response := { signal_id := signal_id, order_id := some order2.order_id,
                        status := "REJECTED",
                        message := "Order submission failed: " ++ submit_error,
                        errors := [submit_error] }
          audit := [decision_event, created_event,
            AuditEvent.order_rejected order2 submit_error]
          calls := [ExtCall.kill_switch_read, ExtCall.risk_checks, ExtCall.broker_submit]
          throttle := cache1 }
      | none =>
        pure {
          response := { signal_id := signal_id, order_id := some sub.1.order_id,
                        status := "APPROVED",
                        message := "Signal processed and order submitted", errors := [] }
          audit := [decision_event, created_event,
            AuditEvent.order_submitted sub.1 ((sub.1.broker_order_id).getD "")]
          calls := [ExtCall.kill_switch_read, ExtCall.risk_checks, ExtCall.broker_submit]
          throttle := cache1 }

/-! ## Contract-symbol parsing (spec section 8)

Modelled from the spec: the repository defines no parser for contract
symbols, yet the round-trip property of spec section 8 presumes one.
Following the canonical format UNDERLYING_YYMMDD_C-or-P_STRIKE of spec
section 4.7, the parser splits the symbol on underscores into exactly four
fields, reads the expiration back as the 21st-century date 20YY-MM-DD, and
reads the strike field as a decimal integer (thousandths of the strike). -/

def split_underscore : List Char → List (List Char)
  | [] => [[]]
  | c :: cs =>
    if c = '_' then [] :: split_underscore cs
    else
      match split_underscore cs with
      | [] => [[c]]
      | g :: gs => (c :: g) :: gs

/-- Decimal digits to a natural number, most significant first. -/
def chars_to_nat (l : List Char) : ℕ :=
  l.foldl (fun acc c => 10 * acc + (c.toNat - 48)) 0

def parse_contract_symbol (s : String) :
    Option (String × String × String × ℤ) :=
  match split_underscore s.data with
  | [u, e, c, k] =>
    match e with
    | [y1, y2, m1, m2, d1, d2] =>
      if (c = ['C'] ∨ c = ['P']) ∧ e.all Char.isDigit ∧ k ≠ [] ∧ k.all Char.isDigit then
        some (⟨u⟩,
          ⟨['2', '0', y1, y2, '-', m1, m2, '-', d1, d2]⟩,
          ⟨c⟩, (chars_to_nat k : ℤ))
      else none
    | _ => none
  | _ => none

/-! ## Option contract validation (src/trade_engine/execution/option_validation.py)

Dates are compared at day granularity.  parse_iso_date abbreviates
strptime("%Y-%m-%d"): the digit layout and month/day ranges are checked;
finer calendar rules (days per month) are not needed at any input considered
below. -/

def parse_iso_date (s : String) : Option (ℕ × ℕ × ℕ) :=
  match s.data with
  | [a, b, c, d, '-', e, f, '-', g, h] =>
    if ([a, b, c, d, e, f, g, h].all Char.isDigit) then
      let y := chars_to_nat [a, b, c, d]
      let m := chars_to_nat [e, f]
      let dd := chars_to_nat [g, h]
      if 1 ≤ m ∧ m ≤ 12 ∧ 1 ≤ dd ∧ dd ≤ 31 then some (y, m, dd) else none
    else none
  | _ => none

/-- Day-granularity date comparison, lexicographic on (year, month, day). -/
def date_le (a b : ℕ × ℕ × ℕ) : Bool :=
  decide (a.1 < b.1 ∨ (a.1 = b.1 ∧
    (a.2.1 < b.2.1 ∨ (a.2.1 = b.2.1 ∧ a.2.2 ≤ b.2.2))))

/-- OptionContractValidator.validate_leg, with today's date passed in. -/
def OptionContractValidator.validate_leg (leg : OptionLeg) (today : ℕ × ℕ × ℕ) :
    Bool × Option String :=
  match parse_iso_date leg.expiration with
  | none => (false, some ("Invalid expiration format: " ++ leg.expiration))
  | some exp_date =>
    if date_le exp_date today then
      (false, some ("Expiration " ++ leg.expiration ++ " must be in the future"))
    else if leg.strike ≤ 0 then
      (false, some ("Strike price must be positive: " ++ q_str leg.strike))
    else if leg.quantity ≤ 0 then
      (false, some ("Quantity must be positive: " ++ toString leg.quantity))
    else if leg.contract_multiplier ≤ 0 then
      (false, some ("Contract multiplier must be positive: " ++
        toString leg.contract_multiplier))
    else if ¬ (leg.side = "BUY" ∨ leg.side = "SELL") then
      (false, some ("Side must be BUY or SELL: " ++ leg.side))
    else if ¬ (leg.option_type.toStr = "CALL" ∨ leg.option_type.toStr = "PUT") then
      (false, some "Option type must be CALL or PUT")
    else (true, none)

/-! ## Concrete fixtures used by the claim theorems below -/

/-- An order already in the terminal FILLED state. -/
def order_c1 : Order :=
  { order_id := "ORD-1"
    strategy_id := "strat1"
    symbol := "AAPL"
    side := "BUY"
    quantity := 100
    notional := 10000
    status := OrderStatus.FILLED
    broker_order_id := some "BRK-1"
    filled_quantity := 100
    filled_notional := 10000
    average_fill_price := some 100
    created_at := "t0"
    submitted_at := some "t0"
    filled_at := some "t0"
    cancelled_at := none
    rejection_reason := none }

/-- A REJECTED (terminal) order for the C1 witness. -/
def order_c1w : Order :=
  { order_c1 with
    order_id := "ORD-1w"
    status := OrderStatus.REJECTED
    filled_quantity := 0
    filled_notional := 0
    average_fill_price := none
    filled_at := none
    rejection_reason := some "risk" }

/-- A live SUBMITTED order: 100 units, 10000 notional, nothing filled. -/
def order_c3 : Order :=
  { order_c1 with
    order_id := "ORD-3"
    status := OrderStatus.SUBMITTED
    filled_quantity := 0
    filled_notional := 0
    average_fill_price := none
    filled_at := none }

/-- A matching fill of 50 units at price 300: notional 15000. -/
def fill_c3 : Fill := Fill.mk' "BRK-1" "AAPL" 50 300 "t1"

/-- An over-filling matching fill: 150 units at price 100. -/
def fill_c3w : Fill := Fill.mk' "BRK-1" "AAPL" 150 100 "t1"

def pc_trivial : PortfolioClient :=
  { get_position := fun _ => 0
    get_all_positions := []
    get_portfolio_value := none
    get_strategy_daily_pnl := fun _ => 0
    get_total_daily_pnl := 0 }

def signal_basic : TradingSignal :=
  { strategy_id := "strat1"
    symbol := "AAPL"
    side := Side.BUY
    confidence := 9 / 10
    target_exposure := 10000
    time_horizon := TimeHorizon.INTRADAY
    constraints := { max_slippage_bps := 25, max_notional := none } }

/-- A 2127 call leg: valid (future-dated), but its contract symbol drops the
century. -/
def leg_c9 : OptionLeg :=
  { symbol := "AAPL"
    option_type := OptionType.CALL
    strike := 175
    expiration := "2127-05-20"
    side := "BUY"
    quantity := 10
    contract_multiplier := 100 }

/-- The same contract a century later: also valid, identical symbol. -/
def leg_c9b : OptionLeg :=
  { leg_c9 with expiration := "2227-05-20" }

/-- A leg for the option-fill claims, expiring within the century. -/
def leg_c8 : OptionLeg :=
  { leg_c9 with expiration := "2027-01-15" }

/-- A partially filled single-leg option order: 8 of 10 contracts at average
price 2. -/
def opt_order_c8 : OptionOrder :=
  { order_id := "OPT-8"
    strategy_id := "strat1"
    leg := leg_c8
    limit_price := none
    status := OrderStatus.PARTIALLY_FILLED
    broker_order_id := some "BRK-OPT"
    filled_quantity := 8
    filled_price := some 2
    created_at := "t0"
    submitted_at := some "t0"
    filled_at := none
    cancelled_at := none
    rejection_reason := none }

/-- A matching over-filling option fill: 5 contracts at price 4. -/
def opt_fill_c8 : OptionFill :=
  { fill_id := "OF-8"
    broker_order_id := "BRK-OPT"
    contract_symbol := leg_c8.get_contract_symbol
    quantity := 5
    price_per_contract := 4
    timestamp := "t1" }

/-- Throttle limits small enough to trip at one order per minute. -/
def limits_c7 : RiskLimits :=
  { DEFAULT_LIMITS with
    max_orders_per_strategy_per_minute := 1
    max_orders_per_strategy_per_hour := 2 }

/-- A SUBMITTED option order with a broker id, for cancellation. -/
def opt_order_c10 : OptionOrder :=
  { opt_order_c8 with
    order_id := "OPT-10"
    status := OrderStatus.SUBMITTED
    filled_quantity := 0
    filled_price := none }

/-! ## Helper lemmas -/

theorem valid_transitions_of_terminal (s : OrderStatus) (h : s.is_terminal = true) :
    valid_transitions s = none := by
  cases s <;> simp_all [OrderStatus.is_terminal, valid_transitions]

theorem status_transition_rejected_of_terminal (s ns : OrderStatus)
    (h : s.is_terminal = true) : status_transition_rejected s ns = false := by
  unfold status_transition_rejected
  rw [valid_transitions_of_terminal s h]

theorem status_transition_rejected_cancel (s : OrderStatus)
    (h : s.is_terminal = false) :
    status_transition_rejected s OrderStatus.CANCELLED = false := by
  cases s <;> simp_all [OrderStatus.is_terminal, status_transition_rejected,
    valid_transitions, List.contains]

theorem order_update_status_fields (o : Order) (ns : OrderStatus)
    (rk : Option String) (now : String) (o' : Order)
    (h : o.update_status ns rk now = Except.ok o') :
    o'.status = ns ∧ o'.quantity = o.quantity ∧ o'.notional = o.notional ∧
    o'.filled_quantity = o.filled_quantity ∧
    o'.filled_notional = o.filled_notional ∧
    o'.average_fill_price = o.average_fill_price := by
  unfold Order.update_status at h
  split at h
  · simp at h
  · simp only [Except.ok.injEq] at h
    subst h
    cases rk <;> split_ifs <;> simp

theorem order_update_status_ok_of_not_rejected (o : Order) (ns : OrderStatus)
    (rk : Option String) (now : String)
    (h : status_transition_rejected o.status ns = false) :
    ∃ o', o.update_status ns rk now = Except.ok o' := by
  unfold Order.update_status
  rw [h]
  simp

theorem option_order_update_status_fields (o : OptionOrder) (ns : OrderStatus)
    (rk : Option String) (now : String) (o' : OptionOrder)
    (h : o.update_status ns rk now = Except.ok o') :
    o'.status = ns ∧ o'.leg = o.leg ∧ o'.filled_quantity = o.filled_quantity ∧
    o'.filled_price = o.filled_price := by
  unfold OptionOrder.update_status at h
  split at h
  · simp at h
  · simp only [Except.ok.injEq] at h
    subst h
    cases rk <;> split_ifs <;> simp

theorem option_order_update_status_ok_of_not_rejected (o : OptionOrder)
    (ns : OrderStatus) (rk : Option String) (now : String)
    (h : status_transition_rejected o.status ns = false) :
    ∃ o', o.update_status ns rk now = Except.ok o' := by
  unfold OptionOrder.update_status
  rw [h]
  simp

theorem spread_update_status_status (o : OptionSpreadOrder)
    (ns : OrderStatus) (rk : Option String) (now : String) (o' : OptionSpreadOrder)
    (h : o.update_status ns rk now = Except.ok o') : o'.status = ns := by
  unfold OptionSpreadOrder.update_status at h
  split at h
  · simp at h
  · simp only [Except.ok.injEq] at h
    subst h
    cases rk <;> split_ifs <;> simp

/-! ## Claim C1 -/

/-- Claim C1, counterexample: a FILLED (terminal) equity order accepts the
transition to CANCELLED without raising, and its status changes: the guard of
update_status never fires for a terminal source status, because terminal
statuses are not keys of the transition table and the guard additionally
requires a non-terminal order. -/
theorem C1_counterexample :
    order_c1.status.is_terminal = true ∧
    order_c1.update_status OrderStatus.CANCELLED none "t1" =
      Except.ok { order_c1 with
        status := OrderStatus.CANCELLED
        cancelled_at := some "t1" } := by
  exact ⟨rfl, rfl⟩

/-- Claim C1, amended: terminal states are not absorbing.  For each of the
three order kinds (equity Order, OptionOrder, OptionSpreadOrder), a call to
update_status on an order whose status is terminal never raises and silently
installs the requested status; the illegal-transition error is raised only
from non-terminal states. -/
theorem C1_theorem :
    (∀ (o : Order) (ns : OrderStatus) (rk : Option String) (now : String),
      o.status.is_terminal = true →
      (o.update_status ns rk now).map Order.status = Except.ok ns) ∧
    (∀ (o : OptionOrder) (ns : OrderStatus) (rk : Option String) (now : String),
      o.status.is_terminal = true →
      (o.update_status ns rk now).map OptionOrder.status = Except.ok ns) ∧
    (∀ (o : OptionSpreadOrder) (ns : OrderStatus) (rk : Option String) (now : String),
      o.status.is_terminal = true →
      (o.update_status ns rk now).map OptionSpreadOrder.status = Except.ok ns) := by
  refine ⟨fun o ns rk now h => ?_, fun o ns rk now h => ?_, fun o ns rk now h => ?_⟩
  · obtain ⟨o', ho⟩ := order_update_status_ok_of_not_rejected o ns rk now
      (status_transition_rejected_of_terminal _ _ h)
    rw [ho]
    exact congrArg Except.ok (order_update_status_fields o ns rk now o' ho).1
  · obtain ⟨o', ho⟩ := option_order_update_status_ok_of_not_rejected o ns rk now
      (status_transition_rejected_of_terminal _ _ h)
    rw [ho]
    exact congrArg Except.ok (option_order_update_status_fields o ns rk now o' ho).1
  · obtain ⟨o', ho⟩ : ∃ o', o.update_status ns rk now = Except.ok o' := by
      unfold OptionSpreadOrder.update_status
      rw [status_transition_rejected_of_terminal _ _ h]
      simp
    rw [ho]
    exact congrArg Except.ok (spread_update_status_status o ns rk now o' ho)

/-- Claim C1, witness: the amended statement applied to a REJECTED order. -/
theorem C1_witness :
    order_c1w.status.is_terminal = true ∧
    (order_c1w.update_status OrderStatus.SUBMITTED none "t2").map Order.status =
      Except.ok OrderStatus.SUBMITTED := by
  exact ⟨by decide, C1_theorem.1 order_c1w OrderStatus.SUBMITTED none "t2" (by decide)⟩

/-! ## Claim C5 -/

/-- Claim C5, counterexample: a freshly constructed kill switch with no
backing store reports inactive — trading proceeds — refuting the claim that
an unavailable store makes is_active report the switch as active
(fail-closed). -/
theorem C5_counterexample :
    (KillSwitch.mk' none).is_active = Except.ok false := by
  exact rfl

/-- Claim C5, amended: the kill switch is fail-open, not fail-closed.  With
no store configured, is_active returns the in-memory flag, which the
constructor initialises to false; and when the backing store cannot be read,
the read error propagates to the caller instead of being treated as an
active halt. -/
theorem C5_theorem :
    (∀ m : Bool,
      ({ redis_client := none, memory_state := m } : KillSwitch).is_active =
        Except.ok m) ∧
    (∀ (data : List (String × String)) (e : String) (m : Bool),
      ({ redis_client := some { data := data, read_error := some e },
         memory_state := m } : KillSwitch).is_active = Except.error e) := by
  constructor
  · intro m
    rfl
  · intro data e m
    rfl

/-! ## Claim C10 -/

/-- Claim C10: for every non-terminal order that has a broker order id, the
routers' cancellation marks the order CANCELLED and reports success whenever
the broker call raises no exception — the broker's boolean result is
discarded, so a broker-side False (for example the paper broker refusing to
cancel an already FILLED order) still yields success.  Stated for the equity
router, the option router on single-leg and on spread orders, and for the
paper broker's False result on a FILLED broker-side order. -/
theorem C10_theorem :
    (∀ (o : Order) (b : Bool) (now : String),
      o.is_terminal = false → o.broker_order_id ≠ none →
      (OrderRouter.cancel_order o (Except.ok b) now).1 = (true, none) ∧
      ((OrderRouter.cancel_order o (Except.ok b) now).2).status =
        OrderStatus.CANCELLED) ∧
    (∀ (o : OptionOrder) (b : Bool) (now : String),
      o.is_terminal = false → o.broker_order_id ≠ none →
      (OptionOrderRouter.cancel_option_order o (Except.ok b) now).1 = (true, none) ∧
      ((OptionOrderRouter.cancel_option_order o (Except.ok b) now).2).status =
        OrderStatus.CANCELLED) ∧
    (∀ (o : OptionSpreadOrder) (b : Bool) (now : String),
      o.is_terminal = false → o.broker_order_id ≠ none →
      (OptionOrderRouter.cancel_spread_order o (Except.ok b) now).1 = (true, none) ∧
      ((OptionOrderRouter.cancel_spread_order o (Except.ok b) now).2).status =
        OrderStatus.CANCELLED) ∧
    (∀ (orders : List (String × String)) (bid : String),
      alist_get orders bid = some "FILLED" →
      PaperBroker.cancel_order orders bid = Except.ok (false, orders)) := by
  refine ⟨fun o b now hterm hbid => ?_, fun o b now hterm hbid => ?_,
    fun o b now hterm hbid => ?_, fun orders bid hst => ?_⟩
  · obtain ⟨o', ho⟩ := order_update_status_ok_of_not_rejected o OrderStatus.CANCELLED
      none now (status_transition_rejected_cancel _ hterm)
    have hst := (order_update_status_fields o _ _ _ _ ho).1
    unfold OrderRouter.cancel_order
    rw [if_neg (by simp [hterm]), if_neg (by simp [hbid]), ho]
    exact ⟨rfl, hst⟩
  · obtain ⟨o', ho⟩ := option_order_update_status_ok_of_not_rejected o
      OrderStatus.CANCELLED none now (status_transition_rejected_cancel _ hterm)
    have hst := (option_order_update_status_fields o _ _ _ _ ho).1
    unfold OptionOrderRouter.cancel_option_order
    rw [if_neg (by simp [hterm]), if_neg (by simp [hbid]), ho]
    exact ⟨rfl, hst⟩
  · obtain ⟨o', ho⟩ : ∃ o', o.update_status OrderStatus.CANCELLED none now =
        Except.ok o' := by
      unfold OptionSpreadOrder.update_status
      rw [status_transition_rejected_cancel _ hterm]
      simp
    have hst := spread_update_status_status o _ _ _ _ ho
    unfold OptionOrderRouter.cancel_spread_order
    rw [if_neg (by simp [hterm]), if_neg (by simp [hbid]), ho]
    exact ⟨rfl, hst⟩
  · unfold PaperBroker.cancel_order
    rw [hst]
    simp

/-- Claim C10, witness: a SUBMITTED single-leg option order with a broker id
is cancelled successfully even though the broker reports False. -/
theorem C10_witness :
    opt_order_c10.is_terminal = false ∧
    opt_order_c10.broker_order_id ≠ none ∧
    (OptionOrderRouter.cancel_option_order opt_order_c10 (Except.ok false) "t3").1 =
      (true, none) := by
  exact ⟨by decide, by decide,
    (C10_theorem.2.1 opt_order_c10 false "t3" (by decide) (by decide)).1⟩

/-! ## Claim C3 -/

/-- Claim C3, counterexample: a matching, positively priced partial fill (50
units at price 300) applied to a live order of 100 units and notional 10000
leaves filled_notional = 15000 > notional = 10000: the notional bound fails
after a partial fill, because the code only clamps notional on the
fully-filled branch. -/
theorem C3_counterexample :
    fill_c3.quantity > 0 ∧ fill_c3.price > 0 ∧
    fill_c3.symbol = order_c3.symbol ∧
    order_c3.broker_order_id = some fill_c3.broker_order_id ∧
    (FillProcessor.apply_fill_to_order order_c3 fill_c3 "t1").map
      (fun o => (o.filled_quantity, o.filled_notional, o.quantity, o.notional)) =
      Except.ok (50, 15000, 100, 10000) ∧
    ¬ ((15000 : ℚ) ≤ 10000) := by
  refine ⟨by norm_num [fill_c3, Fill.mk'], by norm_num [fill_c3, Fill.mk'], rfl, rfl,
    ?_, by norm_num⟩
  norm_num [FillProcessor.apply_fill_to_order, order_c3, order_c1, fill_c3, Fill.mk',
    Order.update_status, status_transition_rejected, valid_transitions,
    OrderStatus.is_terminal, Except.map]
  simp

/-- Claim C3, amended: after every successful fill application the order
satisfies filled_quantity ≤ quantity, and an over-filling (or exactly
filling) fill clamps filled_quantity to quantity and filled_notional to
notional; but a partial fill accumulates raw notional
(filled_notional + fill.notional), which may exceed the order's notional, so
filled_notional ≤ notional does not hold at all times. -/
theorem C3_theorem (o : Order) (f : Fill) (now : String) (o' : Order)
    (h : FillProcessor.apply_fill_to_order o f now = Except.ok o') :
    o'.quantity = o.quantity ∧ o'.notional = o.notional ∧
    o'.filled_quantity ≤ o'.quantity ∧
    (o.filled_quantity + f.quantity ≥ o.quantity →
      o'.filled_quantity = o.quantity ∧ o'.filled_notional = o.notional) ∧
    (¬ o.filled_quantity + f.quantity ≥ o.quantity →
      o'.filled_quantity = o.filled_quantity + f.quantity ∧
      o'.filled_notional = o.filled_notional + f.notional) := by
  unfold FillProcessor.apply_fill_to_order at h
  split at h
  · simp at h
  split at h
  · simp at h
  simp only [] at h
  split at h
  case isTrue hge =>
    rcases hu : o.update_status OrderStatus.FILLED none now with e | o1
    · rw [hu] at h
      simp [Except.map] at h
    rw [hu] at h
    simp only [Except.map] at h
    obtain ⟨hst, hq, hn, hfq, hfn, hap⟩ := order_update_status_fields o _ _ _ _ hu
    split at h <;>
    · simp only [Except.ok.injEq] at h
      subst h
      simp_all
  case isFalse hge =>
    rcases hu : o.update_status OrderStatus.PARTIALLY_FILLED none now with e | o1
    · rw [hu] at h
      simp [Except.map] at h
    rw [hu] at h
    simp only [Except.map] at h
    obtain ⟨hst, hq, hn, hfq, hfn, hap⟩ := order_update_status_fields o _ _ _ _ hu
    have hlt : o.filled_quantity + f.quantity < o.quantity :=
      lt_of_not_le (by simpa using hge)
    split at h <;>
    · simp only [Except.ok.injEq] at h
      subst h
      refine ⟨by simp_all, by simp_all, ?_, fun hc => absurd hc hge,
        fun _ => by simp_all⟩
      dsimp only
      rw [hq]
      exact le_of_lt hlt

/-- Claim C3, witness: the amended statement applied to an over-filling fill
(150 units at price 100 against a 100-unit order): both fields clamp. -/
theorem C3_witness :
    order_c3.filled_quantity + fill_c3w.quantity ≥ order_c3.quantity ∧
    (FillProcessor.apply_fill_to_order order_c3 fill_c3w "t1").map
      (fun o => (o.filled_quantity, o.filled_notional)) =
      Except.ok (order_c3.quantity, order_c3.notional) := by
  have hge : order_c3.filled_quantity + fill_c3w.quantity ≥ order_c3.quantity := by
    norm_num [order_c3, order_c1, fill_c3w, Fill.mk']
  have h : FillProcessor.apply_fill_to_order order_c3 fill_c3w "t1" =
      Except.ok { order_c3 with
        status := OrderStatus.FILLED
        filled_at := some "t1"
        filled_quantity := 100
        filled_notional := 10000
        average_fill_price := some 100 } := by
    norm_num [FillProcessor.apply_fill_to_order, order_c3, order_c1, fill_c3w,
      Fill.mk', Order.update_status, status_transition_rejected, valid_transitions,
      OrderStatus.is_terminal, Except.map]
    simp
    norm_num
  have hcl := (C3_theorem order_c3 fill_c3w "t1" _ h).2.2.2.1 hge
  refine ⟨hge, ?_⟩
  rw [h]
  simp only [Except.map]
  rw [← hcl.1, ← hcl.2]

/-! ## Claim C8 -/

theorem option_price_update_filled_quantity (f : OptionFill) (o2 : OptionOrder) :
    (option_price_update f o2).filled_quantity = o2.filled_quantity := by
  unfold option_price_update
  split
  · rcases o2.filled_price <;> rfl
  · rfl

theorem option_price_update_price_some (f : OptionFill) (o2 : OptionOrder) (p : ℚ)
    (hp : o2.filled_price = some p) (hpos : o2.filled_quantity > 0) :
    (option_price_update f o2).filled_price = some
      ((p * ((o2.filled_quantity : ℚ) - (f.quantity : ℚ)) +
        f.price_per_contract * (f.quantity : ℚ)) / (o2.filled_quantity : ℚ)) := by
  unfold option_price_update
  rw [if_pos hpos, hp]

/-- Claim C8, counterexample: a leg of 10 contracts, 8 already filled at
average price 2, receives a matching over-filling fill of 5 contracts at
price 4.  The code caps filled_quantity at 10 and computes the average from
the capped quantity: (2 * (10 - 5) + 4 * 5) / 10 = 3, whereas the claimed
formula with new_filled = 8 + 5 gives (2 * (13 - 5) + 4 * 5) / 13 = 36/13. -/
theorem C8_counterexample :
    (OptionFillProcessor.apply_fill_to_order opt_order_c8 opt_fill_c8 "t1").map
      (fun o => (o.filled_quantity, o.filled_price)) = Except.ok (10, some 3) ∧
    (3 : ℚ) ≠ (2 * ((8 + 5) - 5) + 4 * 5) / (8 + 5) := by
  constructor
  · norm_num [OptionFillProcessor.apply_fill_to_order, option_price_update,
      opt_order_c8, opt_fill_c8, leg_c8, leg_c9, OptionOrder.update_status,
      status_transition_rejected, valid_transitions, OrderStatus.is_terminal,
      Except.map]
    try simp
    try norm_num
  · norm_num

/-- Claim C8, amended: the option fill processor computes the new average
from the already-capped filled quantity, not from previous-filled plus
fill quantity.  For an order with a prior average p and a matching applied
fill, writing q = min(filled_quantity + fill.quantity, leg.quantity) for the
capped quantity, the result has filled_quantity = q and
filled_price = (p * (q - fill.quantity) + fill.price * fill.quantity) / q;
this agrees with the claimed formula exactly when the fill does not
over-fill the leg. -/
theorem C8_theorem (o : OptionOrder) (f : OptionFill) (now : String)
    (o' : OptionOrder) (p : ℚ)
    (hp : o.filled_price = some p)
    (h : OptionFillProcessor.apply_fill_to_order o f now = Except.ok o')
    (hfq : 0 < f.quantity) (hofq : 0 ≤ o.filled_quantity)
    (hlq : 0 < o.leg.quantity) :
    o'.filled_quantity = min (o.filled_quantity + f.quantity) o.leg.quantity ∧
    o'.filled_price = some
      ((p * (((min (o.filled_quantity + f.quantity) o.leg.quantity : ℤ) : ℚ) -
          (f.quantity : ℚ)) + f.price_per_contract * (f.quantity : ℚ)) /
        ((min (o.filled_quantity + f.quantity) o.leg.quantity : ℤ) : ℚ)) := by
  unfold OptionFillProcessor.apply_fill_to_order at h
  simp only [] at h
  split at h
  · simp at h
  split at h
  · simp at h
  split at h
  case isTrue hge =>
    have hmin : min (o.filled_quantity + f.quantity) o.leg.quantity =
        o.leg.quantity := min_eq_right hge
    rcases hu : o.update_status OrderStatus.FILLED none now with e | o1
    · rw [hu] at h
      simp [Except.map] at h
    rw [hu] at h
    obtain ⟨hst, hleg, hfqe, hfpe⟩ := option_order_update_status_fields o _ _ _ _ hu
    simp only [Except.map, Except.ok.injEq] at h
    subst h
    have ho2q : ({ o1 with filled_quantity := o1.leg.quantity } :
        OptionOrder).filled_quantity = o.leg.quantity := by
      dsimp only
      rw [hleg]
    have ho2p : ({ o1 with filled_quantity := o1.leg.quantity } :
        OptionOrder).filled_price = some p := by
      dsimp only
      rw [hfpe, hp]
    refine ⟨?_, ?_⟩
    · rw [option_price_update_filled_quantity, ho2q, hmin]
    · rw [option_price_update_price_some f _ p ho2p (by rw [ho2q]; exact hlq),
        ho2q, hmin]
  case isFalse hge =>
    have hlt : o.filled_quantity + f.quantity < o.leg.quantity :=
      lt_of_not_le (by simpa using hge)
    have hmin : min (o.filled_quantity + f.quantity) o.leg.quantity =
        o.filled_quantity + f.quantity := min_eq_left (le_of_lt hlt)
    rcases hu : o.update_status OrderStatus.PARTIALLY_FILLED none now with e | o1
    · rw [hu] at h
      simp [Except.map] at h
    rw [hu] at h
    obtain ⟨hst, hleg, hfqe, hfpe⟩ := option_order_update_status_fields o _ _ _ _ hu
    simp only [Except.map, Except.ok.injEq] at h
    subst h
    have ho2q : ({ o1 with filled_quantity := o.filled_quantity + f.quantity } :
        OptionOrder).filled_quantity = o.filled_quantity + f.quantity := rfl
    have ho2p : ({ o1 with filled_quantity := o.filled_quantity + f.quantity } :
        OptionOrder).filled_price = some p := by
      dsimp only
      rw [hfpe, hp]
    have hpos : (0:ℤ) < o.filled_quantity + f.quantity :=
      add_pos_of_nonneg_of_pos hofq hfq
    refine ⟨?_, ?_⟩
    · rw [option_price_update_filled_quantity, ho2q, hmin]
    · rw [option_price_update_price_some f _ p ho2p (by rw [ho2q]; exact hpos),
        ho2q, hmin]

/-- Claim C8, witness: the amended statement applied to the concrete
over-filling fill of the counterexample gives average price 3. -/
theorem C8_witness :
    opt_order_c8.filled_price = some 2 ∧
    (0:ℤ) < opt_fill_c8.quantity ∧ (0:ℤ) ≤ opt_order_c8.filled_quantity ∧
    (0:ℤ) < opt_order_c8.leg.quantity ∧
    (OptionFillProcessor.apply_fill_to_order opt_order_c8 opt_fill_c8 "t1").map
      OptionOrder.filled_quantity =
      Except.ok (min (opt_order_c8.filled_quantity + opt_fill_c8.quantity)
        opt_order_c8.leg.quantity) := by
  have h : OptionFillProcessor.apply_fill_to_order opt_order_c8 opt_fill_c8 "t1" =
      Except.ok { opt_order_c8 with
        status := OrderStatus.FILLED
        filled_at := some "t1"
        filled_quantity := 10
        filled_price := some 3 } := by
    norm_num [OptionFillProcessor.apply_fill_to_order, option_price_update,
      opt_order_c8, opt_fill_c8, leg_c8, leg_c9, OptionOrder.update_status,
      status_transition_rejected, valid_transitions, OrderStatus.is_terminal,
      Except.map]
    try simp
    try norm_num
  have hc := C8_theorem opt_order_c8 opt_fill_c8 "t1" _ 2 rfl h (by decide)
    (by decide) (by decide)
  refine ⟨rfl, by decide, by decide, by decide, ?_⟩
  rw [h]
  simp only [Except.map]
  rw [← hc.1]

/-! ## Claim C7 -/

/-- Claim C7: check_rate_limit fails without recording whenever the count of
stored timestamps within the last 60 seconds reaches the per-minute limit or
the count within the last hour reaches the per-hour limit, leaving the
strategy's stored timestamps unchanged; otherwise it appends the current
timestamp and returns ok. -/
theorem C7_theorem (cache : MemCache) (strategy_id : String) (limits : RiskLimits)
    (now : ℤ) :
    ((((ThrottleChecker.get_order_timestamps cache strategy_id 1 now).length : ℤ) ≥
        limits.max_orders_per_strategy_per_minute ∨
      (((ThrottleChecker.get_order_timestamps cache strategy_id 60 now).length : ℤ) ≥
        limits.max_orders_per_strategy_per_hour)) →
      (ThrottleChecker.check_rate_limit cache strategy_id limits now).1.1 = false ∧
      (ThrottleChecker.check_rate_limit cache strategy_id limits now).1.2.2 = false ∧
      (ThrottleChecker.check_rate_limit cache strategy_id limits now).2 = cache) ∧
    ((((ThrottleChecker.get_order_timestamps cache strategy_id 1 now).length : ℤ) <
        limits.max_orders_per_strategy_per_minute ∧
      (((ThrottleChecker.get_order_timestamps cache strategy_id 60 now).length : ℤ) <
        limits.max_orders_per_strategy_per_hour)) →
      (ThrottleChecker.check_rate_limit cache strategy_id limits now).1 =
        (true, none, true) ∧
      (ThrottleChecker.check_rate_limit cache strategy_id limits now).2 =
        ThrottleChecker.record_order cache strategy_id now) := by
  constructor
  · intro hfail
    unfold ThrottleChecker.check_rate_limit
    rcases le_or_lt limits.max_orders_per_strategy_per_minute
      ((ThrottleChecker.get_order_timestamps cache strategy_id 1 now).length : ℤ)
      with hm | hm
    · rw [if_pos hm]
      exact ⟨rfl, rfl, rfl⟩
    · rw [if_neg (not_le_of_lt hm)]
      have hh : ((ThrottleChecker.get_order_timestamps cache strategy_id 60
          now).length : ℤ) ≥ limits.max_orders_per_strategy_per_hour := by
        rcases hfail with hf | hf
        · exact absurd hf (not_le_of_lt hm)
        · exact hf
      rw [if_pos hh]
      exact ⟨rfl, rfl, rfl⟩
  · intro hok
    unfold ThrottleChecker.check_rate_limit
    rw [if_neg (not_le_of_lt hok.1), if_neg (not_le_of_lt hok.2)]
    exact ⟨rfl, rfl⟩

/-- Claim C7, witness: with a per-minute limit of 1 and one stored timestamp
40 seconds old, the next check at time 1000 fails and leaves the stored
timestamps unchanged; at an empty cache the check passes and appends the
current timestamp. -/
theorem C7_witness :
    ((((ThrottleChecker.get_order_timestamps [("strat1", [960])] "strat1" 1
        1000).length : ℤ) ≥ limits_c7.max_orders_per_strategy_per_minute) ∧
      (ThrottleChecker.check_rate_limit [("strat1", [960])] "strat1" limits_c7
        1000).1.1 = false ∧
      (ThrottleChecker.check_rate_limit [("strat1", [960])] "strat1" limits_c7
        1000).2 = [("strat1", [960])]) ∧
    ((ThrottleChecker.check_rate_limit [] "strat1" limits_c7 1000).1 =
        (true, none, true) ∧
      (ThrottleChecker.check_rate_limit [] "strat1" limits_c7 1000).2 =
        [("strat1", [1000])]) := by
  have h1 := (C7_theorem [("strat1", [960])] "strat1" limits_c7 1000).1
    (Or.inl (by decide))
  have h2 := (C7_theorem [] "strat1" limits_c7 1000).2 (by decide)
  exact ⟨⟨by decide, h1.1, h1.2.2⟩, h2.1, h2.2.trans (by decide)⟩

/-! ## Claim C4 -/

theorem run_checks_step_names (acc : List String × List (String × CheckResult))
    (n : String) (r : Bool × Option String) :
    (run_checks_step acc n r).2.map Prod.fst = acc.2.map Prod.fst ++ [n] := by
  unfold run_checks_step
  simp

theorem run_checks_step_errors_nil (acc : List String × List (String × CheckResult))
    (n : String) (r : Bool × Option String) :
    ((run_checks_step acc n r).1 = [] ↔ (acc.1 = [] ∧ r.1 = true)) := by
  unfold run_checks_step
  cases hr : r.1 <;> simp [hr]

theorem run_checks_step_forall (acc : List String × List (String × CheckResult))
    (n : String) (r : Bool × Option String)
    (P : String × CheckResult → Prop) :
    (∀ p ∈ (run_checks_step acc n r).2, P p) ↔
      ((∀ p ∈ acc.2, P p) ∧ P (n, { valid := r.1, error := r.2 })) := by
  unfold run_checks_step
  constructor
  · intro h
    exact ⟨fun p hp => h p (by simp [hp]), h _ (by simp)⟩
  · rintro ⟨h1, h2⟩ p hp
    rcases List.mem_append.mp hp with hm | hm
    · exact h1 p hm
    · rw [List.mem_singleton.mp hm]
      exact h2


/-- Claim C4: run_all_checks records, for every signal and environment, a
result for each of the eight checks under their fixed names in the fixed
order — no short-circuiting, the map always carries all eight entries — and
the approval flag is true exactly when every recorded check is valid. -/
theorem C4_theorem (pc : PortfolioClient) (cache : MemCache) (now : ℤ)
    (limits : RiskLimits) (signal : TradingSignal) :
    ((PreTradeRiskChecker.run_all_checks pc cache now limits signal).1.2.2).map
      Prod.fst =
      ["order_notional", "slippage", "position_limit", "total_exposure",
       "single_asset_exposure", "strategy_daily_loss", "total_daily_loss",
       "rate_limit"] ∧
    ((PreTradeRiskChecker.run_all_checks pc cache now limits signal).1.1 = true ↔
      ∀ p ∈ (PreTradeRiskChecker.run_all_checks pc cache now limits signal).1.2.2,
        p.2.valid = true) := by
  constructor
  · simp only [PreTradeRiskChecker.run_all_checks]
    simp [run_checks_step_names]
  · simp only [PreTradeRiskChecker.run_all_checks]
    simp only [List.isEmpty_iff]
    simp only [run_checks_step_errors_nil, run_checks_step_forall]
    simp

/-! ## Claim C2 -/

/-- Claim C2: whenever the kill switch reads active, process_signal — for
every portfolio snapshot, throttle cache, limits, broker outcome and signal —
returns REJECTED with the halt message, emits exactly one decision audit
entry whose check_results hold the single entry kill_switch marked invalid,
and performs no other work: the external-interaction trace holds only the
kill-switch read (no risk checks, no broker call), no order event is logged,
and the throttle state is untouched. -/
theorem C2_theorem (ks : KillSwitch) (pc : PortfolioClient) (cache : MemCache)
    (throttle_now : ℤ) (limits : RiskLimits) (broker_submit : Except String String)
    (signal : TradingSignal) (signal_id order_id now : String)
    (h : ks.is_active = Except.ok true) :
    SignalIngestionService.process_signal ks pc cache throttle_now limits
      broker_submit signal signal_id order_id now =
    Except.ok {
      response := { signal_id := signal_id, order_id := none, status := "REJECTED",
                    message := kill_switch_halt_msg,
                    errors := [kill_switch_halt_msg] }
      audit := [AuditEvent.decision signal_id signal.strategy_id signal.symbol
        "REJECTED"
        [("kill_switch", { valid := false, error := some kill_switch_halt_msg })]
        [kill_switch_halt_msg]]
      calls := [ExtCall.kill_switch_read]
      throttle := cache } := by
  unfold SignalIngestionService.process_signal
  rw [h]
  rfl

/-- Claim C2, witness: a concrete activated kill switch with a trivial
portfolio, empty throttle cache and a broker that would accept the order. -/
theorem C2_witness :
    ({ redis_client := none, memory_state := true } : KillSwitch).is_active =
      Except.ok true ∧
    SignalIngestionService.process_signal
      { redis_client := none, memory_state := true } pc_trivial [] 1000
      DEFAULT_LIMITS (Except.ok "PAPER_1") signal_basic "sig-1" "ord-1" "t0" =
    Except.ok {
      response := { signal_id := "sig-1", order_id := none, status := "REJECTED",
                    message := kill_switch_halt_msg,
                    errors := [kill_switch_halt_msg] }
      audit := [AuditEvent.decision "sig-1" "strat1" "AAPL" "REJECTED"
        [("kill_switch", { valid := false, error := some kill_switch_halt_msg })]
        [kill_switch_halt_msg]]
      calls := [ExtCall.kill_switch_read]
      throttle := [] } := by
  refine ⟨rfl, ?_⟩
  rw [C2_theorem ({ redis_client := none, memory_state := true } : KillSwitch)
    pc_trivial [] 1000 DEFAULT_LIMITS (Except.ok "PAPER_1")
    signal_basic "sig-1" "ord-1" "t0" rfl]
  rfl

/-! ## Claim C6 -/

/-- Claim C6 (code bug): when the broker submission raises, the router's
error handler attempts the transition PENDING to FAILED on the freshly
created order.  That transition is not in the table, so update_status itself
raises inside the handler: the router never returns a non-null error to
process_signal, and process_signal propagates the ValueError instead of
transitioning the order to REJECTED, emitting ORDER_REJECTED and returning a
REJECTED response as the spec requires.  Evaluated at a concrete failing
input: a default-limits environment that approves the signal and a broker
raising "Connection refused". -/
theorem C6_theorem :
    (OrderRouter.submit_order
      { order_id := "ord-1"
        strategy_id := "strat1"
        symbol := "AAPL"
        side := "BUY"
        quantity := 10000
        notional := 10000
        status := OrderStatus.PENDING
        broker_order_id := none
        filled_quantity := 0
        filled_notional := 0
        average_fill_price := none
        created_at := "t0"
        submitted_at := none
        filled_at := none
        cancelled_at := none
        rejection_reason := none }
      (Except.error "Connection refused") "t0" =
      Except.error (invalid_transition_msg OrderStatus.PENDING OrderStatus.FAILED)) ∧
    (SignalIngestionService.process_signal (KillSwitch.mk' none) pc_trivial []
      1000 DEFAULT_LIMITS (Except.error "Connection refused") signal_basic
      "sig-1" "ord-1" "t0" =
      Except.error (invalid_transition_msg OrderStatus.PENDING OrderStatus.FAILED)) := by
  constructor
  · rfl
  · norm_num [SignalIngestionService.process_signal, KillSwitch.mk',
      KillSwitch.is_active, PreTradeRiskChecker.run_all_checks, run_checks_step,
      PreTradeRiskChecker.check_order_notional,
      PreTradeRiskChecker.check_slippage_limit,
      ExposureCalculator.check_position_limit,
      ExposureCalculator.check_total_exposure_limit,
      ExposureCalculator.check_single_asset_exposure_limit,
      ExposureCalculator.calculate_new_exposure,
      ExposureCalculator.get_current_position,
      ExposureCalculator.get_total_exposure, ExposureCalculator.get_asset_exposure,
      LossLimitChecker.check_daily_loss_limit,
      LossLimitChecker.check_total_daily_loss_limit,
      ThrottleChecker.check_rate_limit, ThrottleChecker.get_order_timestamps,
      ThrottleChecker.record_order, alist_get, alist_set, pc_trivial, signal_basic,
      TradingSignal.get_order_notional, DEFAULT_LIMITS, OrderRouter.submit_order,
      Order.update_status, status_transition_rejected, valid_transitions,
      OrderStatus.is_terminal, Side.toStr, Except.map, Bind.bind, Except.bind]
    try simp
    try norm_num

/-! ## Claim C9: decimal-digit helper lemmas -/

theorem digit_char_isDigit (d : ℕ) (h : d < 10) : (digit_char d).isDigit = true := by
  unfold digit_char
  interval_cases d <;> decide

theorem digit_char_ne_underscore (d : ℕ) (h : d < 10) : digit_char d ≠ '_' := by
  unfold digit_char
  interval_cases d <;> decide

theorem digit_char_val (d : ℕ) (h : d < 10) : (digit_char d).toNat - 48 = d := by
  unfold digit_char
  interval_cases d <;> decide

theorem isDigit_ne_dash (c : Char) (h : c.isDigit = true) : c ≠ '-' := by
  intro he
  subst he
  simp [Char.isDigit] at h

theorem isDigit_ne_underscore (c : Char) (h : c.isDigit = true) : c ≠ '_' := by
  intro he
  subst he
  simp [Char.isDigit] at h

theorem nat_to_chars_core_fuel (n : ℕ) : ∀ f1 f2 acc, n < f1 → n < f2 →
    nat_to_chars_core f1 n acc = nat_to_chars_core f2 n acc := by
  induction n using Nat.strong_induction_on with
  | _ n ih =>
    intro f1 f2 acc h1 h2
    cases f1 with
    | zero => omega
    | succ f1 =>
      cases f2 with
      | zero => omega
      | succ f2 =>
        simp only [nat_to_chars_core]
        split
        · rfl
        · have hd : n / 10 < n := Nat.div_lt_self (by omega) (by omega)
          exact ih (n / 10) hd f1 f2 _ (by omega) (by omega)

theorem nat_to_chars_core_append (n : ℕ) : ∀ acc,
    nat_to_chars_core (n + 1) n acc = nat_to_chars_core (n + 1) n [] ++ acc := by
  induction n using Nat.strong_induction_on with
  | _ n ih =>
    intro acc
    simp only [nat_to_chars_core]
    split
    · rfl
    · have hd : n / 10 < n := Nat.div_lt_self (by omega) (by omega)
      rw [nat_to_chars_core_fuel (n / 10) n (n / 10 + 1)
        (digit_char (n % 10) :: acc) (by omega) (by omega)]
      rw [nat_to_chars_core_fuel (n / 10) n (n / 10 + 1)
        [digit_char (n % 10)] (by omega) (by omega)]
      rw [ih (n / 10) hd (digit_char (n % 10) :: acc)]
      rw [ih (n / 10) hd [digit_char (n % 10)]]
      simp

theorem nat_to_chars_eq (n : ℕ) : nat_to_chars n =
    if n < 10 then [digit_char n]
    else nat_to_chars (n / 10) ++ [digit_char (n % 10)] := by
  unfold nat_to_chars
  simp only [nat_to_chars_core]
  split
  · rfl
  · rw [nat_to_chars_core_fuel (n / 10) n (n / 10 + 1) [digit_char (n % 10)]
      (by omega) (by omega)]
    exact nat_to_chars_core_append (n / 10) [digit_char (n % 10)]

theorem nat_to_chars_ne_nil (n : ℕ) : nat_to_chars n ≠ [] := by
  rw [nat_to_chars_eq]
  split <;> simp

theorem nat_to_chars_all_digits (n : ℕ) :
    ∀ c ∈ nat_to_chars n, c.isDigit = true := by
  induction n using Nat.strong_induction_on with
  | _ n ih =>
    intro c hc
    rw [nat_to_chars_eq] at hc
    split at hc
    · rw [List.mem_singleton.mp hc]
      exact digit_char_isDigit n (by omega)
    · rcases List.mem_append.mp hc with hm | hm
      · exact ih (n / 10) (Nat.div_lt_self (by omega) (by omega)) c hm
      · rw [List.mem_singleton.mp hm]
        exact digit_char_isDigit (n % 10) (Nat.mod_lt n (by omega))

theorem chars_to_nat_append_digit (l : List Char) (c : Char) :
    chars_to_nat (l ++ [c]) = 10 * chars_to_nat l + (c.toNat - 48) := by
  unfold chars_to_nat
  rw [List.foldl_append]
  rfl

theorem chars_to_nat_nat_to_chars (n : ℕ) :
    chars_to_nat (nat_to_chars n) = n := by
  induction n using Nat.strong_induction_on with
  | _ n ih =>
    rw [nat_to_chars_eq]
    split
    · unfold chars_to_nat
      simp [digit_char_val n (by omega)]
    · rw [chars_to_nat_append_digit,
        ih (n / 10) (Nat.div_lt_self (by omega) (by omega)),
        digit_char_val (n % 10) (Nat.mod_lt n (by omega))]
      omega

/-! ## Claim C9: underscore-splitting lemmas -/

theorem split_underscore_ne_nil (l : List Char) : split_underscore l ≠ [] := by
  induction l with
  | nil => simp [split_underscore]
  | cons c cs ih =>
    unfold split_underscore
    split
    · simp
    · rcases h : split_underscore cs with _ | ⟨g, gs⟩
      · simp
      · simp

theorem split_underscore_no_underscore (l : List Char) (h : '_' ∉ l) :
    split_underscore l = [l] := by
  induction l with
  | nil => rfl
  | cons c cs ih =>
    unfold split_underscore
    rw [if_neg (by intro hc; exact h (hc ▸ List.mem_cons_self c cs))]
    rw [ih (fun hm => h (List.mem_cons_of_mem c hm))]

theorem split_underscore_cons (c : Char) (cs : List Char) :
    split_underscore (c :: cs) =
      if c = '_' then [] :: split_underscore cs
      else
        match split_underscore cs with
        | [] => [[c]]
        | g :: gs => (c :: g) :: gs := by
  rfl

theorem split_underscore_append (u rest : List Char) (h : '_' ∉ u) :
    split_underscore (u ++ '_' :: rest) = u :: split_underscore rest := by
  induction u with
  | nil =>
    simp only [List.nil_append]
    rw [split_underscore_cons, if_pos rfl]
  | cons c u' ih =>
    have hc : c ≠ '_' := fun hc => h (hc ▸ List.mem_cons_self c u')
    have h' : '_' ∉ u' := fun hm => h (List.mem_cons_of_mem c hm)
    simp only [List.cons_append]
    rw [split_underscore_cons, if_neg hc, ih h']

theorem string_mk_data (s : String) : String.mk s.data = s := by
  cases s
  rfl

/-- Claim C9, amended: the contract symbol drops the century from the
expiration and is therefore not injective in the expiration, so no parser can
recover an arbitrary valid expiration; restricted to legs whose underlying
contains no underscore and whose expiration is a digit-formed 20YY-MM-DD
date, the spec-modelled parser recovers underlying, expiration and type
exactly, and the numeric strike field equals the exact mathematical floor of
strike times 1000 (arithmetic read over the rationals; Python's binary
floating point may deviate on strikes whose thousandths are not exactly
representable). -/
theorem C9_theorem (leg : OptionLeg) (y1 y2 m1 m2 d1 d2 : Char)
    (hsym : '_' ∉ leg.symbol.data)
    (hexp : leg.expiration.data = ['2', '0', y1, y2, '-', m1, m2, '-', d1, d2])
    (hy1 : y1.isDigit = true) (hy2 : y2.isDigit = true)
    (hm1 : m1.isDigit = true) (hm2 : m2.isDigit = true)
    (hd1 : d1.isDigit = true) (hd2 : d2.isDigit = true)
    (hstrike : 0 < leg.strike) :
    parse_contract_symbol leg.get_contract_symbol =
      some (leg.symbol, leg.expiration,
        (if leg.option_type = OptionType.CALL then "C" else "P"),
        Int.floor (leg.strike * 1000)) := by
  have hq : (0:ℚ) ≤ leg.strike * 1000 :=
    le_of_lt (mul_pos hstrike (by norm_num))
  have hnn : (0:ℤ) ≤ Int.floor (leg.strike * 1000) := Int.floor_nonneg.mpr hq
  have hpy : py_int (leg.strike * 1000) = Int.floor (leg.strike * 1000) := by
    unfold py_int
    rw [if_pos hq]
  have hk : int_to_chars (py_int (leg.strike * 1000)) =
      nat_to_chars (Int.floor (leg.strike * 1000)).toNat := by
    rw [hpy]
    unfold int_to_chars
    rw [if_neg (not_lt.mpr hnn)]
  have hkdig := nat_to_chars_all_digits (Int.floor (leg.strike * 1000)).toNat
  have hkne := nat_to_chars_ne_nil (Int.floor (leg.strike * 1000)).toNat
  have hkund : '_' ∉ nat_to_chars (Int.floor (leg.strike * 1000)).toNat :=
    fun hm => isDigit_ne_underscore _ (hkdig _ hm) rfl
  have he6 : (remove_dashes leg.expiration).data.drop 2 =
      [y1, y2, m1, m2, d1, d2] := by
    unfold remove_dashes
    show (leg.expiration.data.filter (fun c => c ≠ '-')).drop 2 = _
    rw [hexp]
    simp [List.filter, isDigit_ne_dash y1 hy1, isDigit_ne_dash y2 hy2,
      isDigit_ne_dash m1 hm1, isDigit_ne_dash m2 hm2,
      isDigit_ne_dash d1 hd1, isDigit_ne_dash d2 hd2]
  have he6und : '_' ∉ [y1, y2, m1, m2, d1, d2] := by
    have n1 := isDigit_ne_underscore y1 hy1
    have n2 := isDigit_ne_underscore y2 hy2
    have n3 := isDigit_ne_underscore m1 hm1
    have n4 := isDigit_ne_underscore m2 hm2
    have n5 := isDigit_ne_underscore d1 hd1
    have n6 := isDigit_ne_underscore d2 hd2
    simp only [List.mem_cons, List.not_mem_nil, or_false]
    push_neg
    exact ⟨fun hh => n1 hh.symm, fun hh => n2 hh.symm, fun hh => n3 hh.symm,
      fun hh => n4 hh.symm, fun hh => n5 hh.symm, fun hh => n6 hh.symm⟩
  have hval : ((chars_to_nat (nat_to_chars
      (Int.floor (leg.strike * 1000)).toNat) : ℕ) : ℤ) =
      Int.floor (leg.strike * 1000) := by
    rw [chars_to_nat_nat_to_chars]
    exact Int.toNat_of_nonneg hnn
  cases hot : leg.option_type with
  | CALL =>
    have hdata : (leg.get_contract_symbol).data =
        leg.symbol.data ++ '_' :: ([y1, y2, m1, m2, d1, d2] ++ '_' ::
          (['C'] ++ '_' :: nat_to_chars (Int.floor (leg.strike * 1000)).toNat)) := by
      unfold OptionLeg.get_contract_symbol
      rw [hot]
      simp only [if_pos rfl, String.data_append, hk, he6]
      simp [List.append_assoc]
    have hsplit : split_underscore (leg.get_contract_symbol).data =
        [leg.symbol.data, [y1, y2, m1, m2, d1, d2], ['C'],
         nat_to_chars (Int.floor (leg.strike * 1000)).toNat] := by
      rw [hdata, split_underscore_append _ _ hsym,
        split_underscore_append _ _ he6und,
        split_underscore_append _ _ (by decide),
        split_underscore_no_underscore _ hkund]
    unfold parse_contract_symbol
    rw [hsplit]
    simp only []
    rw [if_pos ⟨Or.inl trivial, by simp [hy1, hy2, hm1, hm2, hd1, hd2], hkne,
      List.all_eq_true.mpr (fun c hc => hkdig c hc)⟩]
    rw [string_mk_data, ← hexp, string_mk_data, hval]
    rfl
  | PUT =>
    have hdata : (leg.get_contract_symbol).data =
        leg.symbol.data ++ '_' :: ([y1, y2, m1, m2, d1, d2] ++ '_' ::
          (['P'] ++ '_' :: nat_to_chars (Int.floor (leg.strike * 1000)).toNat)) := by
      unfold OptionLeg.get_contract_symbol
      rw [hot]
      simp only [String.data_append, hk, he6]
      simp [List.append_assoc]
    have hsplit : split_underscore (leg.get_contract_symbol).data =
        [leg.symbol.data, [y1, y2, m1, m2, d1, d2], ['P'],
         nat_to_chars (Int.floor (leg.strike * 1000)).toNat] := by
      rw [hdata, split_underscore_append _ _ hsym,
        split_underscore_append _ _ he6und,
        split_underscore_append _ _ (by decide),
        split_underscore_no_underscore _ hkund]
    unfold parse_contract_symbol
    rw [hsplit]
    simp only []
    rw [if_pos ⟨Or.inr trivial, by simp [hy1, hy2, hm1, hm2, hd1, hd2], hkne,
      List.all_eq_true.mpr (fun c hc => hkdig c hc)⟩]
    rw [string_mk_data, ← hexp, string_mk_data, hval]
    rfl

/-- Claim C9, counterexample: the contract symbol drops the century, so the
round trip cannot recover the expiration exactly.  The valid (future-dated)
legs for the 2127-05-20 and 2227-05-20 AAPL 175 calls produce the identical
symbol AAPL_270520_C_175000, and the spec-modelled parser necessarily reads
its expiration back as 2027-05-20, which differs from both. -/
theorem C9_counterexample :
    OptionContractValidator.validate_leg leg_c9 (2026, 10, 12) = (true, none) ∧
    OptionContractValidator.validate_leg leg_c9b (2026, 10, 12) = (true, none) ∧
    leg_c9.expiration ≠ leg_c9b.expiration ∧
    leg_c9.get_contract_symbol = leg_c9b.get_contract_symbol ∧
    leg_c9.get_contract_symbol = "AAPL_270520_C_175000" ∧
    (parse_contract_symbol leg_c9.get_contract_symbol).map
      (fun t => t.2.1) = some "2027-05-20" ∧
    "2027-05-20" ≠ leg_c9.expiration := by
  have h1 : py_int ((175:ℚ) * 1000) = 175000 := by norm_num [py_int]
  have hs1 : leg_c9.get_contract_symbol = "AAPL_270520_C_175000" := by
    simp only [OptionLeg.get_contract_symbol, leg_c9, h1]
    decide
  have hs2 : leg_c9b.get_contract_symbol = "AAPL_270520_C_175000" := by
    simp only [OptionLeg.get_contract_symbol, leg_c9b, leg_c9, h1]
    decide
  have hv1 : OptionContractValidator.validate_leg leg_c9 (2026, 10, 12) =
      (true, none) := by
    norm_num [OptionContractValidator.validate_leg, leg_c9, date_le]
    rw [show parse_iso_date "2127-05-20" = some (2127, 5, 20) from by decide]
    decide
  have hv2 : OptionContractValidator.validate_leg leg_c9b (2026, 10, 12) =
      (true, none) := by
    norm_num [OptionContractValidator.validate_leg, leg_c9b, leg_c9, date_le]
    rw [show parse_iso_date "2227-05-20" = some (2227, 5, 20) from by decide]
    decide
  refine ⟨hv1, hv2, by decide, hs1.trans hs2.symm, hs1, ?_, by decide⟩
  rw [hs1]
  decide

/-- Claim C9, witness: the amended round trip applied to a valid 2027-01-15
AAPL 175 call leg. -/
theorem C9_witness :
    ('_' ∉ leg_c8.symbol.data) ∧
    leg_c8.expiration.data = ['2', '0', '2', '7', '-', '0', '1', '-', '1', '5'] ∧
    (0:ℚ) < leg_c8.strike ∧
    (if leg_c8.option_type = OptionType.CALL then "C" else "P") = "C" ∧
    parse_contract_symbol leg_c8.get_contract_symbol =
      some (leg_c8.symbol, leg_c8.expiration,
        (if leg_c8.option_type = OptionType.CALL then "C" else "P"),
        Int.floor (leg_c8.strike * 1000)) := by
  have hstrike : (0:ℚ) < leg_c8.strike := by norm_num [leg_c8, leg_c9]
  exact ⟨by decide, by decide, hstrike, by decide,
    C9_theorem leg_c8 '2' '7' '0' '1' '1' '5' (by decide) (by decide)
      (by decide) (by decide) (by decide) (by decide) (by decide) (by decide)
      hstrike⟩
